import Mathlib

/-!
Shallow embedding of the task-management dashboard's client-side state:
the TaskOverview component (summary aggregation, filter/search view,
load/create/update/delete handlers and the role gates consulted by them)
and the NewTaskModal draft normalization, together with theorems settling
the specified properties against this embedding.
-/

namespace TaskMgmt

/-- JS strings are modelled as lists of characters. -/
abbrev Str := List Char

/-- JS `String.prototype.toLowerCase`, character by character. -/
def toLower (s : Str) : Str := s.map Char.toLower

/-- JS `hay.includes(needle)`: substring containment test. -/
def includes (hay needle : Str) : Bool :=
  match hay with
  | [] => needle.isEmpty
  | c :: t => needle.isPrefixOf (c :: t) || includes t needle

/-- Whitespace test used by the model of JS `trim`. -/
def isWs (c : Char) : Bool := c.isWhitespace

/-- JS `String.prototype.trim`: strip leading and trailing whitespace. -/
def trim (s : Str) : Str :=
  ((s.dropWhile isWs).reverse.dropWhile isWs).reverse

/-- The status literal `'COMPLETED'`. -/
def COMPLETED : Str := "COMPLETED".toList

/-- The status literal `'IN_PROGRESS'`. -/
def IN_PROGRESS : Str := "IN_PROGRESS".toList

/-- The status literal `'HOLD'`. -/
def HOLD : Str := "HOLD".toList

/-- The status literal `'NOT_STARTED'`. -/
def NOT_STARTED : Str := "NOT_STARTED".toList

/-- The wildcard status filter literal `'all'`. -/
def ALLF : Str := "all".toList

/--
A task record as the TaskOverview component reads it: the fields its code
accesses (`id`, `taskName`, `responsible`, `status`, `remarks`,
`lastModifiedBy`); `lastModifiedBy` is optional because the code guards it
with a truthiness test before use.
-/
structure Task where
  id : Nat
  taskName : Str
  responsible : Str
  status : Str
  remarks : Str
  lastModifiedBy : Option Str
deriving DecidableEq, Repr

/-- The summary record `{total, completed, inProgress, onHold, notStarted}`. -/
structure Summary where
  total : Nat
  completed : Nat
  inProgress : Nat
  onHold : Nat
  notStarted : Nat
deriving DecidableEq, Repr

/--
`calculateSummary` from TaskOverview: total is the list length and each
bucket is the length of the list filtered on status equality with the
corresponding literal.
-/
def calculateSummary (taskList : List Task) : Summary :=
  { total := taskList.length
    completed := (taskList.filter (fun task => task.status == COMPLETED)).length
    inProgress := (taskList.filter (fun task => task.status == IN_PROGRESS)).length
    onHold := (taskList.filter (fun task => task.status == HOLD)).length
    notStarted := (taskList.filter (fun task => task.status == NOT_STARTED)).length }

/-- The status-filter half of the `filteredTasks` predicate:
`filter === 'all' || task.status === filter`. -/
def matchesFilter (filter : Str) (task : Task) : Bool :=
  filter == ALLF || task.status == filter

/-- The search half of the `filteredTasks` predicate: the lowercased search
term must be contained in the lowercased task name, responsible, remarks, or
last-modified-by; the last is guarded by a JS truthiness test (`undefined`,
`null` and the empty string are falsy), modelled by the `Option` match and
the emptiness check. -/
def matchesSearch (searchTerm : Str) (task : Task) : Bool :=
  includes (toLower task.taskName) (toLower searchTerm) ||
  includes (toLower task.responsible) (toLower searchTerm) ||
  includes (toLower task.remarks) (toLower searchTerm) ||
  (match task.lastModifiedBy with
   | none => false
   | some s => !s.isEmpty && includes (toLower s) (toLower searchTerm))

/-- `filteredTasks` from TaskOverview: keep the tasks matching both the
status filter and the search term. -/
def filteredTasks (filter searchTerm : Str) (tasks : List Task) : List Task :=
  tasks.filter (fun task => matchesFilter filter task && matchesSearch searchTerm task)

/-- `canCreateTask`: `['ADMIN', 'SUPERVISOR'].includes(currentUser.role)`. -/
def canCreateTask (role : Str) : Bool :=
  role == "ADMIN".toList || role == "SUPERVISOR".toList

/-- `canDeleteTask`: `currentUser.role === 'ADMIN'`. -/
def canDeleteTask (role : Str) : Bool :=
  role == "ADMIN".toList

/-- A notification as emitted by `showNotification(message, type)`. -/
structure Notification where
  message : Str
  kind : Str
deriving DecidableEq, Repr

/-- The component state touched by the handlers: the task collection and
the derived summary. -/
structure EngineState where
  tasks : List Task
  summary : Summary
deriving DecidableEq, Repr

/-- The `useState` initializers: `tasks = []` and an all-zero summary. -/
def initialState : EngineState :=
  { tasks := [], summary := ⟨0, 0, 0, 0, 0⟩ }

/-- Transport errors are carried uninterpreted; a numeric code stands for
the axios error object. -/
abbrev TransportErr := Nat

/--
The observable outcome of one handler invocation: the component state after
it, the notification it emitted, the value its promise settles with
(`Except.ok v` = resolves, where `v = none` models resolving with
`undefined`; `Except.error e` = the handler rethrew the transport error),
and whether the Transport was actually called (the permission-gated
handlers return before the `try` block when the gate denies).
-/
structure HandlerResult where
  state : EngineState
  notif : Notification
  resolved : Except TransportErr (Option Task)
  calledTransport : Bool
deriving Repr

/--
`loadTasks`: on Transport success replace the collection wholesale and
recompute the summary; on failure only an error notification is shown (the
catch block neither rethrows nor touches state). The Transport outcome is
passed in as `tr` (what `taskService.getAllTasks()` settles with).
-/
def loadTasks (st : EngineState) (tr : Except TransportErr (List Task)) : HandlerResult :=
  match tr with
  | .ok tasksData =>
      { state := { tasks := tasksData, summary := calculateSummary tasksData }
        notif := ⟨"All tasks loaded successfully!".toList, "success".toList⟩
        resolved := .ok none
        calledTransport := true }
  | .error _ =>
      { state := st
        notif := ⟨"Error loading tasks!".toList, "error".toList⟩
        resolved := .ok none
        calledTransport := true }

/--
`handleTaskUpdate`: calls the Transport unconditionally (the caller's role
is in scope in the component but this handler never reads it), replaces the
task with matching id by the server-returned record, recomputes the
summary; on failure shows an error notification and rethrows. The handler
body has no return statement, so on success it resolves with `undefined`
(`.ok none`).
-/
def handleTaskUpdate (role : Str) (st : EngineState) (taskId : Nat)
    (tr : Except TransportErr Task) : HandlerResult :=
  match tr with
  | .ok updatedTaskData =>
      let updatedTasks := st.tasks.map (fun task =>
        if task.id == taskId then updatedTaskData else task)
      { state := { tasks := updatedTasks, summary := calculateSummary updatedTasks }
        notif := ⟨"Task updated successfully!".toList, "success".toList⟩
        resolved := .ok none
        calledTransport := true }
  | .error e =>
      { state := st
        notif := ⟨"Error updating task!".toList, "error".toList⟩
        resolved := .error e
        calledTransport := true }

/--
`handleTaskDelete`: gated on `canDeleteTask`; when denied it shows the
permission notification and returns before any Transport call. On success
it removes the task with matching id and recomputes the summary; on failure
it shows an error notification and swallows the error (no rethrow).
-/
def handleTaskDelete (role : Str) (st : EngineState) (taskId : Nat)
    (tr : Except TransportErr Unit) : HandlerResult :=
  if !canDeleteTask role then
    { state := st
      notif := ⟨"You do not have permission to delete tasks".toList, "error".toList⟩
      resolved := .ok none
      calledTransport := false }
  else
    match tr with
    | .ok _ =>
        let updatedTasks := st.tasks.filter (fun task => task.id != taskId)
        { state := { tasks := updatedTasks, summary := calculateSummary updatedTasks }
          notif := ⟨"Task deleted successfully!".toList, "success".toList⟩
          resolved := .ok none
          calledTransport := true }
    | .error _ =>
        { state := st
          notif := ⟨"Error deleting task!".toList, "error".toList⟩
          resolved := .ok none
          calledTransport := true }

/--
A task draft as assembled by NewTaskModal's `taskToCreate` object literal
and handed to `onTaskCreate` / the Transport.
-/
structure TaskDraft where
  taskName : Str
  responsible : Str
  remarks : Str
  status : Str
  priority : Str
  category : Str
  estimatedHours : Int
  department : Str
  isCritical : Bool
  completionPercentage : Nat
  startDate : Option Str
  endDate : Option Str
deriving DecidableEq, Repr

/--
`handleCreateTask`: gated on `canCreateTask`; when denied it shows the
permission notification and returns before any Transport call. On success
it appends the server-returned task and recomputes the summary; on failure
it shows an error notification and rethrows. `newTaskData` is what the
modal submits; it is forwarded to the Transport, whose outcome is `tr`.
-/
def handleCreateTask (role : Str) (st : EngineState) (newTaskData : TaskDraft)
    (tr : Except TransportErr Task) : HandlerResult :=
  if !canCreateTask role then
    { state := st
      notif := ⟨"You do not have permission to create tasks".toList, "error".toList⟩
      resolved := .ok none
      calledTransport := false }
  else
    match tr with
    | .ok createdTask =>
        let updatedTasks := st.tasks ++ [createdTask]
        { state := { tasks := updatedTasks, summary := calculateSummary updatedTasks }
          notif := ⟨"Task \"".toList ++ createdTask.taskName ++
                    "\" created successfully!".toList, "success".toList⟩
          resolved := .ok none
          calledTransport := true }
    | .error e =>
        { state := st
          notif := ⟨"Error creating task!".toList, "error".toList⟩
          resolved := .error e
          calledTransport := true }

/-- The sentinel `'Unassigned'`. -/
def unassigned : Str := "Unassigned".toList

/--
The NewTaskModal form state (`newTask`). `estimatedHours` is stored as an
integer because `handleChange` stores `parseInt(value) || 0` for the
number-typed field (initial value 8).
-/
structure NewTaskForm where
  taskName : Str
  responsible : Str
  remarks : Str
  priority : Str
  category : Str
  estimatedHours : Int
  department : Str
  isCritical : Bool
  startDate : Str
  endDate : Str
deriving DecidableEq, Repr

/--
The `taskToCreate` object literal in NewTaskModal's `handleSubmit`.
`responsible: newTask.responsible.trim() || 'Unassigned'` falls back
exactly when the trimmed string is empty (the only falsy string);
`estimatedHours: parseInt(newTask.estimatedHours) || 8` applied to the
already-integer stored value is the identity with fallback 8 exactly at 0
(`parseInt` of an integer returns it, and `0` is the only falsy integer
the store can hold); `startDate`/`endDate`: `value || null`.
-/
def taskToCreate (f : NewTaskForm) : TaskDraft :=
  { taskName := trim f.taskName
    responsible := if (trim f.responsible).isEmpty then unassigned else trim f.responsible
    remarks := trim f.remarks
    status := NOT_STARTED
    priority := f.priority
    category := f.category
    estimatedHours := if f.estimatedHours = 0 then 8 else f.estimatedHours
    department := f.department
    isCritical := f.isCritical
    completionPercentage := 0
    startDate := if f.startDate.isEmpty then none else some f.startDate
    endDate := if f.endDate.isEmpty then none else some f.endDate }

/-- The JS runtime error raised by calling `.toLowerCase()` on a missing
(`undefined`) field. -/
inductive JsErr where
  | typeError
deriving DecidableEq, Repr

/--
A task record with every field the search predicate touches made optional,
so that field absence (JS `undefined`) is expressible.
-/
structure RawTask where
  taskName : Option Str
  responsible : Option Str
  remarks : Option Str
  lastModifiedBy : Option Str
deriving DecidableEq, Repr

/-- `field.toLowerCase().includes(term.toLowerCase())` on a possibly-absent
field: accessing a missing field's `toLowerCase` throws. -/
def lowerIncludes (field : Option Str) (term : Str) : Except JsErr Bool :=
  match field with
  | none => .error .typeError
  | some s => .ok (includes (toLower s) (toLower term))

/--
The `matchesSearch` expression of `filteredTasks` with JS evaluation order
made explicit: the `||` chain short-circuits left to right, and only
`lastModifiedBy` is guarded by a truthiness test before its
`.toLowerCase()` call; the other three fields are dereferenced
unconditionally when their disjunct is reached.
-/
def matchesSearchRaw (term : Str) (t : RawTask) : Except JsErr Bool :=
  match lowerIncludes t.taskName term with
  | .error e => .error e
  | .ok true => .ok true
  | .ok false =>
    match lowerIncludes t.responsible term with
    | .error e => .error e
    | .ok true => .ok true
    | .ok false =>
      match lowerIncludes t.remarks term with
      | .error e => .error e
      | .ok true => .ok true
      | .ok false =>
        match t.lastModifiedBy with
        | none => .ok false
        | some s => .ok (!s.isEmpty && includes (toLower s) (toLower term))

/-- A concrete task used in concrete instances below. -/
def task1 : Task :=
  { id := 1, taskName := "A".toList, responsible := "Alice".toList,
    status := NOT_STARTED, remarks := "setup".toList, lastModifiedBy := none }

/-- A concrete server-returned record for task 1 with a changed status. -/
def task1updated : Task :=
  { task1 with status := COMPLETED }

/-- A concrete engine state holding exactly `task1`. -/
def state1 : EngineState :=
  { tasks := [task1], summary := calculateSummary [task1] }

/-- A concrete server-returned task whose id is absent from `state1`. -/
def serverTask : Task :=
  { id := 99, taskName := "Srv".toList, responsible := "Bob".toList,
    status := COMPLETED, remarks := "x".toList, lastModifiedBy := some "admin".toList }

/-- A concrete draft for create calls. -/
def draft1 : TaskDraft :=
  { taskName := "New".toList, responsible := unassigned, remarks := [],
    status := NOT_STARTED, priority := "MEDIUM".toList,
    category := "Installation".toList, estimatedHours := 8,
    department := "Production".toList, isCritical := false,
    completionPercentage := 0, startDate := none, endDate := none }

/-- A concrete server-assigned task answering a create call. -/
def createdTask1 : Task :=
  { id := 7, taskName := "New".toList, responsible := unassigned,
    status := NOT_STARTED, remarks := [], lastModifiedBy := none }

/-- A second concrete server-assigned task. -/
def createdTask2 : Task :=
  { id := 2, taskName := "B".toList, responsible := "Bob".toList,
    status := IN_PROGRESS, remarks := [], lastModifiedBy := none }

/-- A raw task with all searched fields present. -/
def rawTask1 : RawTask :=
  { taskName := some "A".toList, responsible := some "Alice".toList,
    remarks := some "setup".toList, lastModifiedBy := none }

/-- A raw task whose `taskName` field is absent. -/
def rawTask2 : RawTask :=
  { taskName := none, responsible := some "Alice".toList,
    remarks := some "setup".toList, lastModifiedBy := none }

/-- A concrete form submission with blank responsible and a cleared
(empty, stored as 0) estimated-hours field. -/
def form1 : NewTaskForm :=
  { taskName := "Task".toList, responsible := "  ".toList, remarks := [],
    priority := "MEDIUM".toList, category := "Installation".toList,
    estimatedHours := 0, department := "Production".toList,
    isCritical := false, startDate := [], endDate := [] }

/-! Helper lemmas. -/

/-- `includes` decides substring containment. -/
theorem includes_iff (hay needle : Str) : includes hay needle = true ↔ needle <:+: hay := by
  induction hay with
  | nil => simp [includes]
  | cons c t ih => simp [includes, ih, List.infix_cons_iff]

/-- A needle longer than the hay is never contained. -/
theorem includes_eq_false_of_lt (hay needle : Str) (h : hay.length < needle.length) :
    includes hay needle = false := by
  cases hinc : includes hay needle with
  | false => rfl
  | true =>
    exact absurd ((includes_iff hay needle).mp hinc).length_le (Nat.not_le.mpr h)

/-- Lowercasing preserves length. -/
theorem toLower_length (s : Str) : (toLower s).length = s.length := by
  simp [toLower]

/-- Each status string contributes at most one unit across the four summary
buckets, exactly one when it is a recognized value. -/
theorem statusWeight_le (s : Str) :
    ((if s == COMPLETED then (1 : Nat) else 0) + (if s == IN_PROGRESS then (1 : Nat) else 0) +
      (if s == HOLD then (1 : Nat) else 0) + (if s == NOT_STARTED then (1 : Nat) else 0)) ≤ 1 ∧
    (((if s == COMPLETED then (1 : Nat) else 0) + (if s == IN_PROGRESS then (1 : Nat) else 0) +
      (if s == HOLD then (1 : Nat) else 0) + (if s == NOT_STARTED then (1 : Nat) else 0)) = 1 ↔
      (s = COMPLETED ∨ s = IN_PROGRESS ∨ s = HOLD ∨ s = NOT_STARTED)) := by
  by_cases h1 : s = COMPLETED
  · subst h1; decide
  by_cases h2 : s = IN_PROGRESS
  · subst h2; decide
  by_cases h3 : s = HOLD
  · subst h3; decide
  by_cases h4 : s = NOT_STARTED
  · subst h4; decide
  simp [beq_iff_eq, h1, h2, h3, h4]

/-- Combined bucket count across a collection: bounded by the length, with
equality exactly when every status is recognized. -/
theorem fourCount (T : List Task) :
    T.countP (fun t => t.status == COMPLETED) + T.countP (fun t => t.status == IN_PROGRESS) +
      T.countP (fun t => t.status == HOLD) + T.countP (fun t => t.status == NOT_STARTED) ≤
      T.length ∧
    (T.countP (fun t => t.status == COMPLETED) + T.countP (fun t => t.status == IN_PROGRESS) +
      T.countP (fun t => t.status == HOLD) + T.countP (fun t => t.status == NOT_STARTED) =
      T.length ↔
      ∀ t ∈ T, t.status = COMPLETED ∨ t.status = IN_PROGRESS ∨ t.status = HOLD ∨
        t.status = NOT_STARTED) := by
  induction T with
  | nil => simp
  | cons a T ih =>
    obtain ⟨ih1, ih2⟩ := ih
    obtain ⟨hw1, hw2⟩ := statusWeight_le a.status
    simp only [List.countP_cons, List.length_cons, List.mem_cons]
    constructor
    · omega
    · constructor
      · intro he
        have hwe : ((if a.status == COMPLETED then (1 : Nat) else 0) +
            (if a.status == IN_PROGRESS then (1 : Nat) else 0) +
            (if a.status == HOLD then (1 : Nat) else 0) +
            (if a.status == NOT_STARTED then (1 : Nat) else 0)) = 1 := by omega
        have hTe := ih2.mp (by omega)
        rintro t (rfl | ht)
        · exact hw2.mp hwe
        · exact hTe t ht
      · intro hall
        have ha := hw2.mpr (hall a (Or.inl rfl))
        have hT := ih2.mpr (fun t ht => hall t (Or.inr ht))
        omega

/-- C1: for every task collection `T`, `calculateSummary T` reports the
length of `T` as total, counts in each bucket exactly the tasks whose
status equals the corresponding recognized value, the four buckets sum to
at most the total, and the sum equals the total exactly when every task's
status is one of the four recognized values. -/
theorem calculateSummary_spec (T : List Task) :
    (calculateSummary T).total = T.length ∧
    (calculateSummary T).completed = T.countP (fun t => t.status == COMPLETED) ∧
    (calculateSummary T).inProgress = T.countP (fun t => t.status == IN_PROGRESS) ∧
    (calculateSummary T).onHold = T.countP (fun t => t.status == HOLD) ∧
    (calculateSummary T).notStarted = T.countP (fun t => t.status == NOT_STARTED) ∧
    (calculateSummary T).completed + (calculateSummary T).inProgress +
      (calculateSummary T).onHold + (calculateSummary T).notStarted ≤
      (calculateSummary T).total ∧
    ((calculateSummary T).completed + (calculateSummary T).inProgress +
      (calculateSummary T).onHold + (calculateSummary T).notStarted =
      (calculateSummary T).total ↔
      ∀ t ∈ T, t.status = COMPLETED ∨ t.status = IN_PROGRESS ∨ t.status = HOLD ∨
        t.status = NOT_STARTED) := by
  obtain ⟨h1, h2⟩ := fourCount T
  refine ⟨rfl, ?_, ?_, ?_, ?_, ?_, ?_⟩ <;>
    simp only [calculateSummary, List.countP_eq_length_filter]
  · simpa only [List.countP_eq_length_filter] using h1
  · simpa only [List.countP_eq_length_filter] using h2

/-- The status half of the view predicate, as a proposition. -/
theorem matchesFilter_iff (filter : Str) (t : Task) :
    matchesFilter filter t = true ↔ (filter = ALLF ∨ t.status = filter) := by
  simp [matchesFilter, Bool.or_eq_true, beq_iff_eq]

/-- The search half of the view predicate, as a proposition: the code's
extra nonemptiness test on `lastModifiedBy` (JS truthiness of the empty
string) is invisible, because a term contained in the empty string is the
empty term, which the first disjunct already accepts. -/
theorem matchesSearch_iff (searchTerm : Str) (t : Task) :
    matchesSearch searchTerm t = true ↔
      (toLower searchTerm <:+: toLower t.taskName ∨
       toLower searchTerm <:+: toLower t.responsible ∨
       toLower searchTerm <:+: toLower t.remarks ∨
       ∃ s, t.lastModifiedBy = some s ∧ toLower searchTerm <:+: toLower s) := by
  cases hlm : t.lastModifiedBy with
  | none => simp [matchesSearch, hlm, includes_iff, or_assoc]
  | some s =>
    simp only [matchesSearch, hlm, Bool.or_eq_true, Bool.and_eq_true,
      includes_iff, Option.some.injEq, Bool.not_eq_true', or_assoc]
    constructor
    · rintro (h | h | h | ⟨_, h⟩)
      · exact Or.inl h
      · exact Or.inr (Or.inl h)
      · exact Or.inr (Or.inr (Or.inl h))
      · exact Or.inr (Or.inr (Or.inr ⟨s, rfl, h⟩))
    · rintro (h | h | h | ⟨s', hs', h⟩)
      · exact Or.inl h
      · exact Or.inr (Or.inl h)
      · exact Or.inr (Or.inr (Or.inl h))
      · obtain rfl : s = s' := hs'
        by_cases hs : s = []
        · subst hs
          refine Or.inl ?_
          have hterm : toLower searchTerm = [] := by simpa [toLower] using h
          simp [hterm]
        · refine Or.inr (Or.inr (Or.inr ⟨?_, h⟩))
          simpa [List.isEmpty_iff] using hs

/-- C2: for every collection, status filter (the wildcard `'all'` or one of
the four status values) and search term, the filtered view is an
order-preserving sublist of the collection containing exactly the tasks
that satisfy both the status condition and the case-insensitive substring
search over task name, responsible, remarks and (when present)
last-modified-by; the empty search term matches every task. -/
theorem filteredTasks_spec (tasks : List Task) (filter searchTerm : Str)
    (hf : filter = ALLF ∨ filter = NOT_STARTED ∨ filter = IN_PROGRESS ∨
      filter = COMPLETED ∨ filter = HOLD) :
    List.Sublist (filteredTasks filter searchTerm tasks) tasks ∧
    (∀ t, t ∈ filteredTasks filter searchTerm tasks ↔
      (t ∈ tasks ∧ (filter = ALLF ∨ t.status = filter) ∧
        (toLower searchTerm <:+: toLower t.taskName ∨
         toLower searchTerm <:+: toLower t.responsible ∨
         toLower searchTerm <:+: toLower t.remarks ∨
         ∃ s, t.lastModifiedBy = some s ∧ toLower searchTerm <:+: toLower s))) ∧
    (∀ t, matchesSearch [] t = true) := by
  refine ⟨List.filter_sublist _, ?_, ?_⟩
  · intro t
    rw [filteredTasks, List.mem_filter, Bool.and_eq_true, matchesFilter_iff,
      matchesSearch_iff]
  · intro t
    rw [matchesSearch_iff]
    refine Or.inl ?_
    simp [toLower]

/-- C2 witness: the theorem applied to the singleton collection `[task1]`,
the wildcard filter and the empty search term. -/
theorem filteredTasks_spec_witness :
    List.Sublist (filteredTasks ALLF [] [task1]) [task1] ∧
    (∀ t, t ∈ filteredTasks ALLF [] [task1] ↔
      (t ∈ [task1] ∧ (ALLF = ALLF ∨ t.status = ALLF) ∧
        (toLower [] <:+: toLower t.taskName ∨
         toLower [] <:+: toLower t.responsible ∨
         toLower [] <:+: toLower t.remarks ∨
         ∃ s, t.lastModifiedBy = some s ∧ toLower [] <:+: toLower s))) ∧
    (∀ t, matchesSearch [] t = true) :=
  filteredTasks_spec [task1] ALLF [] (Or.inl rfl)

/-- C3 counterexample: a load and an ADMIN delete whose Transport calls
fail with error code 0 both resolve successfully with no value (their
catch blocks only notify and do not rethrow), so the transport error is
not surfaced to the caller, contradicting the claim's every-operation
error-surfacing conjunct. -/
theorem load_delete_failure_swallowed_cex :
    (loadTasks state1 (.error 0)).resolved ≠ Except.error 0 ∧
    (handleTaskDelete "ADMIN".toList state1 1 (.error 0)).resolved ≠ Except.error 0 := by
  constructor <;> simp [loadTasks, handleTaskDelete, canDeleteTask]

/-- C3 amended: when the Transport call fails, every operation (load,
update, delete, create) leaves the task collection and the derived summary
exactly as they were, and an error notification is emitted in all four
cases; update and create rethrow the error to their caller, while load and
delete swallow it — their promise resolves with no value, so for them the
failure is surfaced only through the notification, not to the caller. When
the Transport call succeeds, the collection and the summary are updated
together: the stored summary is always the recomputation over the stored
collection, so every mutating operation fully succeeds or fully fails. -/
theorem transport_failure_atomic (st : EngineState) (e : TransportErr)
    (role : Str) (taskId : Nat) (draft : TaskDraft)
    (hc : canCreateTask role = true) (hd : canDeleteTask role = true) :
    ((loadTasks st (.error e)).state = st ∧
     (loadTasks st (.error e)).resolved = .ok none ∧
     (loadTasks st (.error e)).notif.kind = "error".toList) ∧
    ((handleTaskUpdate role st taskId (.error e)).state = st ∧
     (handleTaskUpdate role st taskId (.error e)).resolved = .error e ∧
     (handleTaskUpdate role st taskId (.error e)).notif.kind = "error".toList) ∧
    ((handleTaskDelete role st taskId (.error e)).state = st ∧
     (handleTaskDelete role st taskId (.error e)).resolved = .ok none ∧
     (handleTaskDelete role st taskId (.error e)).notif.kind = "error".toList) ∧
    ((handleCreateTask role st draft (.error e)).state = st ∧
     (handleCreateTask role st draft (.error e)).resolved = .error e ∧
     (handleCreateTask role st draft (.error e)).notif.kind = "error".toList) ∧
    (∀ ts, (loadTasks st (.ok ts)).state.summary =
      calculateSummary (loadTasks st (.ok ts)).state.tasks) ∧
    (∀ u, (handleTaskUpdate role st taskId (.ok u)).state.summary =
      calculateSummary (handleTaskUpdate role st taskId (.ok u)).state.tasks) ∧
    ((handleTaskDelete role st taskId (.ok ())).state.summary =
      calculateSummary (handleTaskDelete role st taskId (.ok ())).state.tasks) ∧
    (∀ u, (handleCreateTask role st draft (.ok u)).state.summary =
      calculateSummary (handleCreateTask role st draft (.ok u)).state.tasks) := by
  simp [loadTasks, handleTaskUpdate, handleTaskDelete, handleCreateTask, hc, hd]

/-- C3 amended witness: the theorem applied to `state1`, error code 0 and
the ADMIN role. -/
theorem transport_failure_atomic_witness :
    ((loadTasks state1 (.error 0)).state = state1 ∧
     (loadTasks state1 (.error 0)).resolved = .ok none ∧
     (loadTasks state1 (.error 0)).notif.kind = "error".toList) ∧
    ((handleTaskUpdate "ADMIN".toList state1 1 (.error 0)).state = state1 ∧
     (handleTaskUpdate "ADMIN".toList state1 1 (.error 0)).resolved = .error 0 ∧
     (handleTaskUpdate "ADMIN".toList state1 1 (.error 0)).notif.kind = "error".toList) ∧
    ((handleTaskDelete "ADMIN".toList state1 1 (.error 0)).state = state1 ∧
     (handleTaskDelete "ADMIN".toList state1 1 (.error 0)).resolved = .ok none ∧
     (handleTaskDelete "ADMIN".toList state1 1 (.error 0)).notif.kind = "error".toList) ∧
    ((handleCreateTask "ADMIN".toList state1 draft1 (.error 0)).state = state1 ∧
     (handleCreateTask "ADMIN".toList state1 draft1 (.error 0)).resolved = .error 0 ∧
     (handleCreateTask "ADMIN".toList state1 draft1 (.error 0)).notif.kind =
       "error".toList) ∧
    (∀ ts, (loadTasks state1 (.ok ts)).state.summary =
      calculateSummary (loadTasks state1 (.ok ts)).state.tasks) ∧
    (∀ u, (handleTaskUpdate "ADMIN".toList state1 1 (.ok u)).state.summary =
      calculateSummary (handleTaskUpdate "ADMIN".toList state1 1 (.ok u)).state.tasks) ∧
    ((handleTaskDelete "ADMIN".toList state1 1 (.ok ())).state.summary =
      calculateSummary (handleTaskDelete "ADMIN".toList state1 1 (.ok ())).state.tasks) ∧
    (∀ u, (handleCreateTask "ADMIN".toList state1 draft1 (.ok u)).state.summary =
      calculateSummary
        (handleCreateTask "ADMIN".toList state1 draft1 (.ok u)).state.tasks) :=
  transport_failure_atomic state1 0 "ADMIN".toList 1 draft1 (by decide) (by decide)

/-- C4 counterexample: with the caller's role VIEWER, an update on `state1`
whose Transport call succeeds with `task1updated` is not rejected by any
permission gate: the Transport is reached and the local collection does
change, contradicting the claim that VIEWER updates are rejected before
any Transport call. -/
theorem viewer_update_not_gated_cex :
    ¬ ((handleTaskUpdate "VIEWER".toList state1 1 (.ok task1updated)).calledTransport
        = false ∨
       (handleTaskUpdate "VIEWER".toList state1 1 (.ok task1updated)).state = state1) := by
  decide

/-- C4 amended: the permission gate is consulted before create
(`canCreateTask`) and before delete (`canDeleteTask`), but not before
update: `handleTaskUpdate` never reads the role, behaves identically for
every role, and always reaches the Transport; a role denied by the
create/delete gates is stopped before the Transport with the state
unchanged. -/
theorem update_not_gated (role other : Str) (st : EngineState) (taskId : Nat)
    (trU : Except TransportErr Task) (draft : TaskDraft)
    (trC : Except TransportErr Task) (trD : Except TransportErr Unit)
    (hnc : canCreateTask role = false) (hnd : canDeleteTask role = false) :
    handleTaskUpdate role st taskId trU = handleTaskUpdate other st taskId trU ∧
    (handleTaskUpdate role st taskId trU).calledTransport = true ∧
    (handleCreateTask role st draft trC).calledTransport = false ∧
    (handleCreateTask role st draft trC).state = st ∧
    (handleTaskDelete role st taskId trD).calledTransport = false ∧
    (handleTaskDelete role st taskId trD).state = st := by
  cases trU <;> simp [handleTaskUpdate, handleCreateTask, handleTaskDelete, hnc, hnd]

/-- C4 amended witness: the amended theorem applied to the VIEWER role
against the ADMIN role on `state1`. -/
theorem update_not_gated_witness :
    handleTaskUpdate "VIEWER".toList state1 1 (.ok task1updated) =
      handleTaskUpdate "ADMIN".toList state1 1 (.ok task1updated) ∧
    (handleTaskUpdate "VIEWER".toList state1 1 (.ok task1updated)).calledTransport
      = true ∧
    (handleCreateTask "VIEWER".toList state1 draft1 (.ok createdTask1)).calledTransport
      = false ∧
    (handleCreateTask "VIEWER".toList state1 draft1 (.ok createdTask1)).state = state1 ∧
    (handleTaskDelete "VIEWER".toList state1 1 (.ok ())).calledTransport = false ∧
    (handleTaskDelete "VIEWER".toList state1 1 (.ok ())).state = state1 :=
  update_not_gated "VIEWER".toList "ADMIN".toList state1 1 (.ok task1updated) draft1
    (.ok createdTask1) (.ok ()) (by decide) (by decide)

/-- C5: a VIEWER's create and delete are stopped by the permission gate:
the Transport is never called, the state (collection and summary) is
unchanged, and the permission-denied error notification is emitted; in
general the create gate admits exactly ADMIN and SUPERVISOR and the delete
gate admits exactly ADMIN. -/
theorem viewer_mutations_rejected (st : EngineState) (draft : TaskDraft) (taskId : Nat)
    (trC : Except TransportErr Task) (trD : Except TransportErr Unit) :
    (handleCreateTask "VIEWER".toList st draft trC).state = st ∧
    (handleCreateTask "VIEWER".toList st draft trC).calledTransport = false ∧
    (handleCreateTask "VIEWER".toList st draft trC).notif =
      ⟨"You do not have permission to create tasks".toList, "error".toList⟩ ∧
    (handleTaskDelete "VIEWER".toList st taskId trD).state = st ∧
    (handleTaskDelete "VIEWER".toList st taskId trD).calledTransport = false ∧
    (handleTaskDelete "VIEWER".toList st taskId trD).notif =
      ⟨"You do not have permission to delete tasks".toList, "error".toList⟩ ∧
    (∀ role, canCreateTask role = true ↔
      (role = "ADMIN".toList ∨ role = "SUPERVISOR".toList)) ∧
    (∀ role, canDeleteTask role = true ↔ role = "ADMIN".toList) := by
  refine ⟨?_, ?_, ?_, ?_, ?_, ?_, ?_, ?_⟩ <;>
    simp [handleCreateTask, handleTaskDelete, canCreateTask, canDeleteTask]

/-- C6: when a create succeeds with a server-returned task not already in
the collection, the new collection is exactly the old one with the task
appended (hence prior order preserved and the new task last), the new task
occurs exactly once, and the summary total grows by exactly one. -/
theorem create_appends (role : Str) (st : EngineState) (draft : TaskDraft) (created : Task)
    (hrole : canCreateTask role = true) (hfresh : created ∉ st.tasks) :
    (handleCreateTask role st draft (.ok created)).state.tasks = st.tasks ++ [created] ∧
    (handleCreateTask role st draft (.ok created)).state.tasks.count created = 1 ∧
    (handleCreateTask role st draft (.ok created)).state.summary.total =
      (calculateSummary st.tasks).total + 1 := by
  have htasks : (handleCreateTask role st draft (.ok created)).state.tasks =
      st.tasks ++ [created] := by
    simp [handleCreateTask, hrole]
  refine ⟨htasks, ?_, ?_⟩
  · rw [htasks, List.count_append, List.count_eq_zero.mpr hfresh]
    simp
  · simp [handleCreateTask, hrole, calculateSummary]

/-- C6 witness: the theorem applied to the ADMIN role, `state1`, `draft1`
and the fresh server task `createdTask2`. -/
theorem create_appends_witness :
    (handleCreateTask "ADMIN".toList state1 draft1 (.ok createdTask2)).state.tasks =
      state1.tasks ++ [createdTask2] ∧
    (handleCreateTask "ADMIN".toList state1 draft1
      (.ok createdTask2)).state.tasks.count createdTask2 = 1 ∧
    (handleCreateTask "ADMIN".toList state1 draft1 (.ok createdTask2)).state.summary.total
      = (calculateSummary state1.tasks).total + 1 :=
  create_appends "ADMIN".toList state1 draft1 createdTask2 (by decide) (by decide)

/-- The first element surviving `dropWhile` fails the predicate. -/
theorem head_dropWhile_false (p : Char → Bool) (l : Str) (a : Char) (t : Str)
    (h : l.dropWhile p = a :: t) : p a = false := by
  induction l with
  | nil => simp [List.dropWhile] at h
  | cons b l ih =>
    rw [List.dropWhile_cons] at h
    by_cases hb : p b
    · rw [if_pos hb] at h
      exact ih h
    · rw [if_neg hb] at h
      cases h
      simpa using hb

/-- A nonempty trimmed string contains a non-whitespace character. -/
theorem trim_any_nonWs (s : Str) (h : ¬ trim s = []) :
    (trim s).any (fun c => !(isWs c)) = true := by
  unfold trim at *
  cases hB : (s.dropWhile isWs).reverse.dropWhile isWs with
  | nil => rw [hB] at h; simp at h
  | cons a t =>
    have ha : isWs a = false := head_dropWhile_false isWs _ a t hB
    refine List.any_eq_true.mpr ⟨a, ?_, ?_⟩
    · simp
    · simp [ha]

/-- C7: for every submitted form, `taskToCreate` normalizes a blank (empty
after trimming) responsible to the `'Unassigned'` sentinel, falls back to 8
when the stored estimated-hours value is not a valid positive integer, and
hands the Transport a draft whose estimated hours lie in [1, 1000] and
whose responsible is non-blank (contains a non-whitespace character). The
hypothesis records what the number input's declared constraints (min=1,
max=1000, integral step) admit to `handleSubmit`: the stored value is 0
(field cleared; `parseInt('') || 0`) or an integer in [1, 1000]. -/
theorem taskToCreate_normalizes (f : NewTaskForm)
    (hH : f.estimatedHours = 0 ∨ (1 ≤ f.estimatedHours ∧ f.estimatedHours ≤ 1000)) :
    ((trim f.responsible).isEmpty = true → (taskToCreate f).responsible = unassigned) ∧
    (f.estimatedHours = 0 → (taskToCreate f).estimatedHours = 8) ∧
    1 ≤ (taskToCreate f).estimatedHours ∧ (taskToCreate f).estimatedHours ≤ 1000 ∧
    (taskToCreate f).responsible.any (fun c => !(isWs c)) = true := by
  have hhours : 1 ≤ (taskToCreate f).estimatedHours ∧
      (taskToCreate f).estimatedHours ≤ 1000 := by
    rcases hH with h0 | ⟨hlo, hhi⟩
    · simp only [taskToCreate, h0, if_pos]
      omega
    · have hne : ¬ f.estimatedHours = 0 := by omega
      simp only [taskToCreate, if_neg hne]
      omega
  refine ⟨?_, ?_, hhours.1, hhours.2, ?_⟩
  · intro hresp
    simp [taskToCreate, hresp]
  · intro hh
    simp [taskToCreate, hh]
  · by_cases hre : (trim f.responsible).isEmpty = true
    · have : (taskToCreate f).responsible = unassigned := by simp [taskToCreate, hre]
      rw [this]
      decide
    · have hne : ¬ trim f.responsible = [] := by
        simpa [List.isEmpty_iff] using hre
      have : (taskToCreate f).responsible = trim f.responsible := by
        simp [taskToCreate, hre]
      rw [this]
      exact trim_any_nonWs _ hne

/-- C7 witness: the theorem applied to `form1`, whose responsible is blank
and whose estimated-hours field was cleared (stored 0). -/
theorem taskToCreate_normalizes_witness :
    ((trim form1.responsible).isEmpty = true →
      (taskToCreate form1).responsible = unassigned) ∧
    (form1.estimatedHours = 0 → (taskToCreate form1).estimatedHours = 8) ∧
    1 ≤ (taskToCreate form1).estimatedHours ∧ (taskToCreate form1).estimatedHours ≤ 1000 ∧
    (taskToCreate form1).responsible.any (fun c => !(isWs c)) = true :=
  taskToCreate_normalizes form1 (Or.inl rfl)

/-- C8 counterexample: an update whose id (99) matches no task in `state1`
and whose Transport call succeeds with `serverTask` resolves with no value
(the handler body has no return statement), so the server-returned task is
not delivered to the caller through the handler's result, contradicting
the delivery conjunct of the claim. -/
theorem update_missing_id_cex :
    (handleTaskUpdate "ADMIN".toList state1 99 (.ok serverTask)).resolved ≠
      Except.ok (some serverTask) := by
  simp [handleTaskUpdate]

/-- C8 amended: when no task in the collection carries the given id and
the Transport call succeeds, the collection is unchanged (element for
element, hence also in membership), no error is raised (the handler
resolves, with a success notification), and the handler returns no value
to its caller. -/
theorem update_missing_id (role : Str) (st : EngineState) (taskId : Nat) (u : Task)
    (hid : ∀ t ∈ st.tasks, t.id ≠ taskId) :
    (handleTaskUpdate role st taskId (.ok u)).state.tasks = st.tasks ∧
    (handleTaskUpdate role st taskId (.ok u)).resolved = .ok none ∧
    (handleTaskUpdate role st taskId (.ok u)).notif.kind = "success".toList := by
  have hmap : st.tasks.map (fun task => if task.id = taskId then u else task)
      = st.tasks := by
    have hcongr : st.tasks.map (fun task => if task.id = taskId then u else task)
        = st.tasks.map id :=
      List.map_congr_left (fun a ha => if_neg (hid a ha))
    rw [hcongr, List.map_id]
  refine ⟨?_, ?_, ?_⟩ <;> simp [handleTaskUpdate, hmap]

/-- C8 amended witness: the amended theorem applied to `state1` and id 99,
carried by no task there. -/
theorem update_missing_id_witness :
    (handleTaskUpdate "ADMIN".toList state1 99 (.ok serverTask)).state.tasks =
      state1.tasks ∧
    (handleTaskUpdate "ADMIN".toList state1 99 (.ok serverTask)).resolved = .ok none ∧
    (handleTaskUpdate "ADMIN".toList state1 99 (.ok serverTask)).notif.kind =
      "success".toList :=
  update_missing_id "ADMIN".toList state1 99 serverTask (by decide)

/-- C9 counterexample: a create invoked by an ADMIN on the initial state
(no load has ever completed) is not rejected: the Transport is reached and
the local collection changes, contradicting the claim that mutations
before the first load fail with no Transport call and no state change. -/
theorem create_before_load_cex :
    (handleCreateTask "ADMIN".toList initialState draft1
      (.ok createdTask1)).calledTransport = true ∧
    (handleCreateTask "ADMIN".toList initialState draft1 (.ok createdTask1)).state ≠
      initialState := by
  constructor
  · decide
  · decide

/-- C9 amended: the component has no Empty/Loaded distinction: the
collection initializes to the empty array and mutations invoked before any
load run exactly as in any other state, subject only to the permission
gates; a create allowed by the gate reaches the Transport, appends the
returned task to the empty collection and reports success. -/
theorem mutations_before_load (role : Str) (draft : TaskDraft) (created : Task)
    (hrole : canCreateTask role = true) :
    (handleCreateTask role initialState draft (.ok created)).calledTransport = true ∧
    (handleCreateTask role initialState draft (.ok created)).state.tasks = [created] ∧
    (handleCreateTask role initialState draft (.ok created)).notif.kind =
      "success".toList := by
  simp [handleCreateTask, hrole, initialState]

/-- C9 amended witness: the amended theorem applied to the ADMIN role. -/
theorem mutations_before_load_witness :
    (handleCreateTask "ADMIN".toList initialState draft1
      (.ok createdTask1)).calledTransport = true ∧
    (handleCreateTask "ADMIN".toList initialState draft1 (.ok createdTask1)).state.tasks
      = [createdTask1] ∧
    (handleCreateTask "ADMIN".toList initialState draft1 (.ok createdTask1)).notif.kind
      = "success".toList :=
  mutations_before_load "ADMIN".toList draft1 createdTask1 (by decide)

/-- C10: the search predicate is total on tasks whose task name,
responsible and remarks are all present (whatever `lastModifiedBy` is,
absent included), and for every task missing one of those three fields
some search term drives evaluation into the error branch: only
`lastModifiedBy` is guarded against absence. -/
theorem matchesSearchRaw_guard_spec :
    (∀ (t : RawTask) (term : Str),
      t.taskName.isSome = true → t.responsible.isSome = true → t.remarks.isSome = true →
      ∃ b, matchesSearchRaw term t = .ok b) ∧
    (∀ t : RawTask,
      (t.taskName = none ∨ t.responsible = none ∨ t.remarks = none) →
      ∃ term, matchesSearchRaw term t = .error .typeError) := by
  constructor
  · intro t term h1 h2 h3
    obtain ⟨a, ha⟩ := Option.isSome_iff_exists.mp h1
    obtain ⟨b, hb⟩ := Option.isSome_iff_exists.mp h2
    obtain ⟨c, hc⟩ := Option.isSome_iff_exists.mp h3
    cases hba : includes (toLower a) (toLower term) with
    | true => exact ⟨true, by simp [matchesSearchRaw, lowerIncludes, ha, hba]⟩
    | false =>
      cases hbb : includes (toLower b) (toLower term) with
      | true =>
        exact ⟨true, by simp [matchesSearchRaw, lowerIncludes, ha, hb, hba, hbb]⟩
      | false =>
        cases hbc : includes (toLower c) (toLower term) with
        | true =>
          exact ⟨true, by
            simp [matchesSearchRaw, lowerIncludes, ha, hb, hc, hba, hbb, hbc]⟩
        | false =>
          cases hlm : t.lastModifiedBy with
          | none =>
            exact ⟨false, by
              simp [matchesSearchRaw, lowerIncludes, ha, hb, hc, hba, hbb, hbc, hlm]⟩
          | some s =>
            exact ⟨!s.isEmpty && includes (toLower s) (toLower term), by
              simp [matchesSearchRaw, lowerIncludes, ha, hb, hc, hba, hbb, hbc, hlm]⟩
  · rintro t (h | h | h)
    · exact ⟨[], by simp [matchesSearchRaw, lowerIncludes, h]⟩
    · cases hn : t.taskName with
      | none => exact ⟨[], by simp [matchesSearchRaw, lowerIncludes, hn]⟩
      | some a =>
        refine ⟨List.replicate (a.length + 1) 'z', ?_⟩
        have hba : includes (toLower a)
            (toLower (List.replicate (a.length + 1) 'z')) = false := by
          apply includes_eq_false_of_lt
          simp [toLower]
        simp [matchesSearchRaw, lowerIncludes, hn, h, hba]
    · cases hn : t.taskName with
      | none => exact ⟨[], by simp [matchesSearchRaw, lowerIncludes, hn]⟩
      | some a =>
        cases hr : t.responsible with
        | none =>
          refine ⟨List.replicate (a.length + 1) 'z', ?_⟩
          have hba : includes (toLower a)
              (toLower (List.replicate (a.length + 1) 'z')) = false := by
            apply includes_eq_false_of_lt
            simp [toLower]
          simp [matchesSearchRaw, lowerIncludes, hn, hr, hba]
        | some b =>
          refine ⟨List.replicate (a.length + b.length + 1) 'z', ?_⟩
          have hba : includes (toLower a)
              (toLower (List.replicate (a.length + b.length + 1) 'z')) = false := by
            apply includes_eq_false_of_lt
            simp [toLower]
            omega
          have hbb : includes (toLower b)
              (toLower (List.replicate (a.length + b.length + 1) 'z')) = false := by
            apply includes_eq_false_of_lt
            simp [toLower]
            omega
          simp [matchesSearchRaw, lowerIncludes, hn, hr, h, hba, hbb]

/-- C10 witness: the totality half applied to `rawTask1` (all three fields
present) and the reachability half applied to `rawTask2` (missing task
name). -/
theorem matchesSearchRaw_guard_spec_witness :
    (∃ b, matchesSearchRaw [] rawTask1 = .ok b) ∧
    (∃ term, matchesSearchRaw term rawTask2 = .error .typeError) :=
  ⟨matchesSearchRaw_guard_spec.1 rawTask1 [] rfl rfl rfl,
   matchesSearchRaw_guard_spec.2 rawTask2 (Or.inl rfl)⟩

end TaskMgmt
